import Mathlib

/-!
Verification of the InfraUtilX utility library against its specification.

The development shallowly embeds the Python modules
`infrastructure/utils/ip.py`, `infrastructure/utils/stack_manager.py` and
`infrastructure/aws_profiles/profile_manager.py`.  External effects
(HTTP requests, subprocess invocations of the orchestration tool, the
cloud-side security-group state, environment variables and on-disk files)
are made explicit as values threaded through the functions; the Python
control flow is translated branch by branch.
-/

namespace InfraUtilX

/-- Outcome of one HTTP GET as the Python code observes it
(`requests.get`): either a response carrying a status code and body text,
or a raised exception. -/
inductive HttpResult where
  | resp (status : Nat) (text : String)
  | exn
  deriving DecidableEq, Repr

/-- Network environment of `get_local_public_ip`: the outcome that the
primary endpoint (api.ipify.org) and the secondary endpoint (ifconfig.me)
would produce if queried on this call. -/
structure Net where
  primary : HttpResult
  secondary : HttpResult
  deriving DecidableEq, Repr

/-- Embedding of `get_local_public_ip` (ip.py lines 4-20), additionally
recording in the second component whether the secondary endpoint was
actually queried.  The Python code queries the secondary endpoint only
inside the `except` handler of the primary request; a primary response
with a non-200 status returns `None` directly. -/
def get_local_public_ip_traced (net : Net) : Option String × Bool :=
  match net.primary with
  | .resp s t => (if s = 200 then some t else none, false)
  | .exn =>
    match net.secondary with
    | .resp s t => (if s = 200 then some t else none, true)
    | .exn => (none, true)

/-- Result of `get_local_public_ip`: the returned optional IP string. -/
def get_local_public_ip (net : Net) : Option String :=
  (get_local_public_ip_traced net).1

/-- Whether `get_local_public_ip` queried the secondary endpoint. -/
def secondary_queried (net : Net) : Bool :=
  (get_local_public_ip_traced net).2

/-- An HTTP outcome counts as failed when the call raised or the response
status is not 200 (the code tests `status_code == 200`). -/
def httpFailed : HttpResult → Bool
  | .exn => true
  | .resp s _ => s ≠ 200

/-- Whether the primary request raised an exception. -/
def primary_raised (net : Net) : Bool :=
  match net.primary with
  | .exn => true
  | .resp _ _ => false

/-- Embedding of `format_cidr_from_ip` (ip.py lines 22-33): plain string
concatenation of the address and the suffix, defaulting to "/32". -/
def format_cidr_from_ip (ip : String) (suffix : String := "/32") : String :=
  ip ++ suffix

/-- Python truthiness of an optional string: both None and the empty
string are falsy (the code guards with patterns like `if not sg_id`). -/
def pyTruthy : Option String → Option String
  | none => none
  | some s => if s = "" then none else some s

/-- Prefix test (str.startswith), computed on the character list. -/
def strStartsWith (s pre : String) : Bool :=
  pre.toList.isPrefixOf s.toList

/-- Suffix test (str.endswith), computed on the character list. -/
def strEndsWith (s suf : String) : Bool :=
  suf.toList.reverse.isPrefixOf s.toList.reverse

/-- Whitespace strip on both ends (str.strip), computed on the character
list. -/
def pyStrip (s : String) : String :=
  (((s.toList.dropWhile Char.isWhitespace).reverse.dropWhile
    Char.isWhitespace).reverse).asString

/-- Character-wise lowercasing (configparser's optionxform). -/
def lowerStr (s : String) : String :=
  (s.toList.map Char.toLower).asString

/-- One ingress rule in the shape `_get_security_group_rules` returns:
a dictionary with protocol, port (taken from from_port) and cidr_blocks
(stack_manager.py lines 369-375). -/
structure SGRule where
  protocol : Option String
  port : Option Nat
  cidr_blocks : List String
  deriving DecidableEq, Repr

/-- Live cloud state observed and mutated through the orchestration tool:
the ingress rule set of each security group, keyed by group id. -/
structure Cloud where
  sgRules : String → List SGRule

/-- One entry of the JSON array printed by the stack-listing command
(fields accessed with .get, hence optional). -/
structure RawStack where
  name : Option String
  projectName : Option String
  lastUpdate : Option String
  resourceCount : Option Nat
  deriving DecidableEq, Repr

/-- External-tool environment for one round of StackManager calls: the
address-lookup outcomes, whether the pulumi executable is on the PATH,
the parsed stack listing (none collapses the failure paths: missing
executable, non-zero exit, unparseable JSON), and the result of
`_get_stack_outputs` per full stack name (its two direct attempts and the
tag-scan fallback are collapsed into one oracle, since every failure path
of that helper returns the empty dictionary; output values are modelled
as strings). -/
structure Env where
  net : Net
  pulumiInstalled : Bool
  rawStacks : Option (List RawStack)
  stackOutputs : String → List (String × String)

/-- Embedding of `StackManager._get_stack_outputs`: an empty result when
the executable is missing, otherwise the oracle's answer. -/
def get_stack_outputs (env : Env) (full : String) : List (String × String) :=
  if env.pulumiInstalled then env.stackOutputs full else []

/-- Lookup of one key in an outputs dictionary (keys are unique in the
source JSON object). -/
def lookupOutput (outs : List (String × String)) (k : String) : Option String :=
  (outs.find? (fun p => p.1 == k)).map (fun p => p.2)

/-- Stack summary dictionaries built by `StackManager.list_stacks`
(stack_manager.py lines 80-86). -/
structure StackSummary where
  name : String
  project : String
  last_update : Option String
  resources : Option Nat
  outputs : List (String × String)
  deriving DecidableEq, Repr

/-- Embedding of `StackManager.list_stacks` (stack_manager.py lines
38-94): empty on a missing executable or a failed/unparseable listing;
otherwise filter by project-name prefix when a filter is set, skip raw
entries whose name or projectName is falsy, fetch outputs for
project/stack, and keep the entry only when the outputs dictionary is
truthy (non-empty). -/
def list_stacks (env : Env) (project_filter : Option String) : List StackSummary :=
  if env.pulumiInstalled = false then []
  else
    match env.rawStacks with
    | none => []
    | some raw =>
      let kept := match project_filter with
        | some f => raw.filter (fun (s : RawStack) => strStartsWith (s.projectName.getD "") f)
        | none => raw
      kept.filterMap (fun (s : RawStack) =>
        match pyTruthy s.name, pyTruthy s.projectName with
        | some n, some p =>
          let full := p ++ "/" ++ n
          let outs := get_stack_outputs env full
          if outs.isEmpty then none
          else some ⟨full, p, s.lastUpdate, s.resourceCount, outs⟩
        | _, _ => none)

/-- Access-status dictionaries built by `StackManager.check_access`
(stack_manager.py lines 280-286). -/
structure AccessStatus where
  stack_name : String
  security_group_id : String
  has_access : Bool
  current_ip : String
  authorized_ips : List String
  deriving DecidableEq, Repr

/-- Embedding of `StackManager._get_security_group_rules`: empty when the
executable is missing or the disposable query program fails (per-group
oracle fetchOk); on success the program reports the live ingress rules of
the group, with port taken from from_port. -/
def get_security_group_rules (env : Env) (cloud : Cloud) (fetchOk : String → Bool)
    (sgId : String) : List SGRule :=
  if env.pulumiInstalled = false then []
  else if fetchOk sgId then cloud.sgRules sgId else []

/-- Status built for one stack inside the `check_access` loop
(stack_manager.py lines 261-286): skip the stack when its
security_group_id output is falsy; otherwise collect the cidr blocks of
port-22 rules and test membership of the current cidr. -/
def mkAccessStatus (env : Env) (cloud : Cloud) (fetchOk : String → Bool)
    (cidr : String) (s : StackSummary) : Option AccessStatus :=
  match pyTruthy (lookupOutput s.outputs "security_group_id") with
  | none => none
  | some sg =>
    let rules := get_security_group_rules env cloud fetchOk sg
    let auth := ((rules.filter (fun r => r.port == some 22)).map
      (fun r => r.cidr_blocks)).flatten
    let has := rules.any (fun r => r.port == some 22 && r.cidr_blocks.contains cidr)
    some ⟨s.name, sg, has, cidr, auth⟩

/-- Embedding of `StackManager.check_access` (stack_manager.py lines
237-288): empty when the current address is falsy (`if not current_ip`
covers both None and an empty-string response body); otherwise one status
per listed (optionally name-filtered) stack that has a truthy
security_group_id output. -/
def check_access (env : Env) (cloud : Cloud) (fetchOk : String → Bool)
    (stack_name : Option String) (project_filter : Option String) : List AccessStatus :=
  match pyTruthy (get_local_public_ip env.net) with
  | none => []
  | some ip =>
    let cidr := format_cidr_from_ip ip
    let listed := list_stacks env project_filter
    let kept := match stack_name with
      | some n => listed.filter (fun (s : StackSummary) => s.name == n)
      | none => listed
    kept.filterMap (mkAccessStatus env cloud fetchOk cidr)

/-- Outcome of one `update_ip_access` call: whether it reported success,
and whether the mutating orchestration run (pulumi up) was executed. -/
structure UpdateOutcome where
  success : Bool
  mutationRun : Bool
  deriving DecidableEq, Repr

/-- Modelled contract of the mutating orchestration program staged by
`update_ip_access` (stack_manager.py lines 446-471): on a zero exit the
security group gains one appended ingress rule with protocol tcp, port 22
and the current cidr as its only block. -/
def addRule (cloud : Cloud) (sgId cidr : String) : Cloud :=
  ⟨fun g => if g = sgId then cloud.sgRules g ++ [⟨some "tcp", some 22, [cidr]⟩]
    else cloud.sgRules g⟩

/-- Staging and running the disposable update program (stack_manager.py
lines 490-510): a failed stack-init returns failure before the mutating
run; otherwise the run is executed and success mirrors its exit code. -/
def run_sg_update (cloud : Cloud) (sgId cidr : String) (initOk upOk : Bool) :
    UpdateOutcome × Cloud :=
  if initOk = false then (⟨false, false⟩, cloud)
  else if upOk then (⟨true, true⟩, addRule cloud sgId cidr)
  else (⟨false, true⟩, cloud)

/-- Embedding of `update_ip_access` (stack_manager.py lines 385-514, via
the module-level wrapper, whose manager has no project filter).  The
external calls the code performs itself observe env1; the embedded
`check_access` call re-invokes the external tools and observes env2 (the
code re-queries, so the two snapshots may differ).  Control flow follows
the source: guard on the executable, resolve the address, list stacks,
find the target by name, require a truthy security_group_id output, then
short-circuit with success iff the pre-update check returned a first
entry with access; an empty check result proceeds to the mutating run.
The address guard is `if not current_ip`, so a falsy (None or empty)
address fails the call before any listing. -/
def update_ip_access (env1 env2 : Env) (cloud : Cloud) (fetchOk : String → Bool)
    (initOk upOk : Bool) (stack_name : String) : UpdateOutcome × Cloud :=
  if env1.pulumiInstalled = false then (⟨false, false⟩, cloud)
  else
    match pyTruthy (get_local_public_ip env1.net) with
    | none => (⟨false, false⟩, cloud)
    | some ip =>
      if (list_stacks env1 none).isEmpty then (⟨false, false⟩, cloud)
      else
        match (list_stacks env1 none).find? (fun s => s.name == stack_name) with
        | none => (⟨false, false⟩, cloud)
        | some target =>
          match pyTruthy (lookupOutput target.outputs "security_group_id") with
          | none => (⟨false, false⟩, cloud)
          | some sgId =>
            match check_access env2 cloud fetchOk (some stack_name) none with
            | [] => run_sg_update cloud sgId (format_cidr_from_ip ip) initOk upOk
            | a :: _ =>
              if a.has_access then (⟨true, false⟩, cloud)
              else run_sg_update cloud sgId (format_cidr_from_ip ip) initOk upOk

/-- Concrete environment realizing the C3 scenario: the address lookup
answers 203.0.113.42, the tool lists one stack dev/test-stack whose only
output is security_group_id sg-12345. -/
def envC3 : Env :=
  ⟨⟨.resp 200 "203.0.113.42", .exn⟩, true,
   some [⟨some "test-stack", some "dev", some "2024-01-01T00:00:00Z", some 3⟩],
   fun full => if full = "dev/test-stack" then [("security_group_id", "sg-12345")] else []⟩

/-- Concrete cloud state for the C3 scenario: sg-12345 carries one
ingress rule for tcp port 22 with block 198.51.100.0/32. -/
def cloudC3 : Cloud :=
  ⟨fun g => if g = "sg-12345" then [⟨some "tcp", some 22, ["198.51.100.0/32"]⟩] else []⟩

/-- Concrete environment for the C8 counterexample: the tool lists one
stack but none of its outputs can be retrieved (the retrieval helper
yields the empty dictionary). -/
def envC8 : Env :=
  ⟨⟨.resp 200 "203.0.113.42", .exn⟩, true,
   some [⟨some "s1", some "proj", some "2024-01-01T00:00:00Z", some 3⟩], fun _ => []⟩

/-- Concrete environment for the C8 witness: the same listing, with the
outputs retrieval succeeding. -/
def envC8w : Env :=
  ⟨⟨.resp 200 "203.0.113.42", .exn⟩, true,
   some [⟨some "s1", some "proj", none, none⟩],
   fun _ => [("security_group_id", "sg-1")]⟩

/-- Concrete environment for the C2 witness: one stack proj/s1 exporting
security group sg-1, current address 203.0.113.42. -/
def envC2 : Env :=
  ⟨⟨.resp 200 "203.0.113.42", .exn⟩, true,
   some [⟨some "s1", some "proj", none, none⟩],
   fun _ => [("security_group_id", "sg-1")]⟩

/-- Concrete cloud for the C2 witness: sg-1 already authorizes the
current cidr on port 22 with exactly one rule. -/
def cloudC2 : Cloud :=
  ⟨fun g => if g = "sg-1" then [⟨some "tcp", some 22, ["203.0.113.42/32"]⟩] else []⟩

/-- Concrete first snapshot for the C9 witness: the update's own queries
see one stack proj/s1 exporting security group sg-1. -/
def envC9a : Env :=
  ⟨⟨.resp 200 "203.0.113.42", .exn⟩, true,
   some [⟨some "s1", some "proj", none, none⟩],
   fun _ => [("security_group_id", "sg-1")]⟩

/-- Concrete second snapshot for the C9 witness: by the time the embedded
access check re-queries the tool, the listing comes back empty, so the
check yields no status entries. -/
def envC9b : Env :=
  ⟨⟨.resp 200 "203.0.113.42", .exn⟩, true, some [], fun _ => []⟩

/-- Concrete cloud for the C9 witness: no rules anywhere yet. -/
def cloudC9 : Cloud := ⟨fun _ => []⟩

/-- Errors raised by the configparser-style file reader: content before
any section header, a line that is neither header nor key-value, a
redeclared section, a redeclared option (strict mode defaults). -/
inductive ParseError where
  | missingSectionHeader
  | parsingError
  | duplicateSection
  | duplicateOption
  deriving DecidableEq, Repr

/-- Options of one parsed section, in file order. -/
abbrev IniOptions := List (String × String)

/-- A parsed file: sections with their options, in file order. -/
abbrev Ini := List (String × IniOptions)

/-- First '=' or ':' on a trimmed content line splits key (trimmed,
lowercased as configparser's optionxform does) from value (trimmed). -/
def splitKV (t : String) : Option (String × String) :=
  match t.toList.findIdx? (fun c => c == '=' || c == ':') with
  | none => none
  | some i =>
    some (lowerStr (pyStrip ((t.toList.take i).asString)),
      pyStrip ((t.toList.drop (i + 1)).asString))

/-- Line-by-line reader mirroring configparser on the constructs this
repository relies on: blank lines and #/;-comments are skipped, [name]
opens a section (duplicates rejected), key=value / key:value lines attach
to the open section (duplicates rejected), any other content line before
a header raises missingSectionHeader and after one raises parsingError.
Value-continuation lines and DEFAULT-section option inheritance are not
modelled (unused by the code under verification). -/
def parseIniAux : List String → Option (String × IniOptions) → Ini →
    Except ParseError Ini
  | [], cur, acc =>
    .ok (acc ++ (match cur with | none => [] | some s => [s]))
  | line :: rest, cur, acc =>
    let t := pyStrip line
    if t = "" || strStartsWith t "#" || strStartsWith t ";" then parseIniAux rest cur acc
    else if strStartsWith t "[" then
      if strEndsWith t "]" && ((t.drop 1).dropRight 1) ≠ "" then
        let nm := (t.drop 1).dropRight 1
        let done := acc ++ (match cur with | none => [] | some s => [s])
        if done.any (fun s => s.1 == nm) then .error .duplicateSection
        else parseIniAux rest (some (nm, [])) done
      else .error .parsingError
    else
      match cur with
      | none => .error .missingSectionHeader
      | some (nm, opts) =>
        match splitKV t with
        | none => .error .parsingError
        | some kv =>
          if opts.any (fun p => p.1 == kv.1) then .error .duplicateOption
          else parseIniAux rest (some (nm, opts ++ [kv])) acc

/-- Parse a whole file. -/
def parseIni (lines : List String) : Except ParseError Ini :=
  parseIniAux lines none []

/-- Sections as configparser's sections() reports them: the special
DEFAULT section is excluded. -/
def sectionsOf (ini : Ini) : Ini :=
  ini.filter (fun s => s.1 != "DEFAULT")

/-- Lookup of a section's options by name. -/
def findSection (ini : Ini) (name : String) : Option IniOptions :=
  (ini.find? (fun s => s.1 == name)).map (fun s => s.2)

/-- Option presence in a section (has_option). -/
def hasOpt (opts : IniOptions) (k : String) : Bool :=
  opts.any (fun p => p.1 == k)

/-- Option value in a section (get with fallback None). -/
def iniGet (opts : IniOptions) (k : String) : Option String :=
  (opts.find? (fun p => p.1 == k)).map (fun p => p.2)

/-- Profile-manager world: the two on-disk files as raw lines (none means
the file does not exist), the first account id an SSO cache-directory
scan would yield, and the identity-check command results per profile
(`_get_account_id_from_sts` and the subprocess-and-config classification
of `_get_identity_info`, both of which swallow their own errors and
return None/None on any failure). -/
structure ProfFS where
  configLines : Option (List String)
  credsLines : Option (List String)
  ssoCacheAccount : Option String
  stsAccount : String → Option String
  stsIdentity : String → Option String × Option String

/-- Process environment variables consulted by the profile manager. -/
structure EnvVars where
  awsProfile : Option String
  awsDefaultProfile : Option String
  deriving DecidableEq, Repr

/-- Embedding of `get_current_profile` (profile_manager.py lines
297-315): AWS_PROFILE if truthy, else AWS_DEFAULT_PROFILE if truthy,
else None. -/
def get_current_profile (ev : EnvVars) : Option String :=
  match pyTruthy ev.awsProfile with
  | some p => some p
  | none => pyTruthy ev.awsDefaultProfile

/-- Catalog entries built by `list_profiles` (ProfileInfo class,
profile_manager.py lines 27-40). -/
structure ProfileInfo where
  name : String
  region : Option String
  is_sso : Bool
  is_default : Bool
  is_active : Bool
  account_id : Option String
  auth_method : Option String
  user_identity : Option String
  deriving DecidableEq, Repr

/-- Embedding of `_get_account_id_from_sso_cache` (profile_manager.py
lines 105-148): an explicit sso_account_id in the profile section wins;
otherwise a profile with an sso_session consults the cache-scan result;
no session or no section yields None. -/
def get_account_id_from_sso_cache (fs : ProfFS) (name : String) (cfg : Ini) :
    Option String :=
  let sec := if name ≠ "default" then "profile " ++ name else "default"
  match findSection cfg sec with
  | none => none
  | some opts =>
    match pyTruthy (iniGet opts "sso_account_id") with
    | some aid => some aid
    | none =>
      match pyTruthy (iniGet opts "sso_session") with
      | none => none
      | some _ => fs.ssoCacheAccount

/-- Credentials-file refinement of a config profile's auth method
(profile_manager.py lines 230-239): run only for a profile that is not
SSO and still has a falsy auth method; reads (and therefore parses) the
credentials file when it exists, classifying by aws_access_key_id then
credential_process. -/
def credsAuthFix (fs : ProfFS) (is_sso : Bool) (auth : Option String)
    (name : String) : Except ParseError (Option String) :=
  if pyTruthy auth = none && is_sso = false then
    match fs.credsLines with
    | none => pure auth
    | some clines => do
      let creds ← parseIni clines
      pure (match findSection creds name with
        | none => auth
        | some copts =>
          if hasOpt copts "aws_access_key_id" then some "api_key"
          else if hasOpt copts "credential_process" then some "external"
          else auth)
  else pure auth

/-- Construction of one config-file profile entry (profile_manager.py
lines 184-250): region, SSO detection, activity by name equality with
the resolved current profile, SSO-cache account lookup, role-arn
classification, the conditional identity-check call, and the
credentials-file auth heuristic. -/
def buildConfigBody (fs : ProfFS) (cfg : Ini) (current : Option String)
    (fetchAll : Bool) (name : String) (is_default : Bool) (opts : IniOptions) :
    Except ParseError ProfileInfo :=
  let region := iniGet opts "region"
  let is_sso := hasOpt opts "sso_start_url" || hasOpt opts "sso_session"
  let is_active := decide (current = some name)
  let account0 := if is_sso then get_account_id_from_sso_cache fs name cfg else none
  let auth0 : Option String := if is_sso then some "sso" else none
  let ui0 := if is_sso && hasOpt opts "sso_role_name" then iniGet opts "sso_role_name"
    else none
  let step1 : Option String × Option String :=
    if hasOpt opts "role_arn" then
      (some "role",
        if (((iniGet opts "role_arn").getD "").splitOn "/").length ≥ 2 then
          (((iniGet opts "role_arn").getD "").splitOn "/").get? 1
        else ui0)
    else (auth0, ui0)
  let step2 : Option String × Option String × Option String :=
    if account0 = none && (fetchAll || is_active) then
      if step1.1 = none || step1.2 = none then
        (fs.stsAccount name,
          (if step1.1 = none then (fs.stsIdentity name).1 else step1.1),
          (if step1.2 = none then (fs.stsIdentity name).2 else step1.2))
      else (fs.stsAccount name, step1.1, step1.2)
    else (account0, step1.1, step1.2)
  (credsAuthFix fs is_sso step2.2.1 name).map (fun auth =>
    ⟨name, region, is_sso, is_default, is_active, step2.1, auth, step2.2.2⟩)

/-- Per-section dispatch of the config-file loop (profile_manager.py
lines 169-182): the default section keeps its name and the default flag,
a profile-prefixed section is stripped, sso-session sections are skipped,
any other section name is used as is. -/
def configProfileOfSection (fs : ProfFS) (cfg : Ini) (current : Option String)
    (fetchAll : Bool) (s : String × IniOptions) : Except ParseError (Option ProfileInfo) :=
  if s.1 = "default" then
    (buildConfigBody fs cfg current fetchAll "default" true s.2).map some
  else if strStartsWith s.1 "profile " then
    (buildConfigBody fs cfg current fetchAll (s.1.drop 8) false s.2).map some
  else if strStartsWith s.1 "sso-session" then pure none
  else (buildConfigBody fs cfg current fetchAll s.1 false s.2).map some

/-- Loop of the config-file phase: one entry appended per non-skipped
section, in order; errors propagate. -/
def configEntries (fs : ProfFS) (cfg : Ini) (current : Option String)
    (fetchAll : Bool) : Ini → Except ParseError (List ProfileInfo)
  | [] => .ok []
  | s :: rest => do
    let p? ← configProfileOfSection fs cfg current fetchAll s
    let ps ← configEntries fs cfg current fetchAll rest
    match p? with
    | none => pure ps
    | some p => pure (p :: ps)

/-- Config-file phase of `list_profiles` (profile_manager.py lines
163-251): nothing when the file is missing, else parse it (errors
propagate) and build one entry per non-skipped section, in order. -/
def configPhase (fs : ProfFS) (current : Option String) (fetchAll : Bool) :
    Except ParseError (List ProfileInfo) :=
  match fs.configLines with
  | none => pure []
  | some lines => do
    let cfg ← parseIni lines
    configEntries fs cfg current fetchAll (sectionsOf cfg)

/-- Construction of one credentials-only profile entry
(profile_manager.py lines 258-293): no region and no SSO flag, activity
by name equality, auth classified from the credentials options, and for
fetch-all or the active profile the identity-check results taken
directly. -/
def credsProfile (fs : ProfFS) (current : Option String) (fetchAll : Bool)
    (sec : String) (opts : IniOptions) : ProfileInfo :=
  let is_default := sec = "default"
  let is_active := decide (current = some sec)
  let auth0 : Option String :=
    if hasOpt opts "aws_access_key_id" then some "api_key"
    else if hasOpt opts "credential_process" then some "external"
    else none
  if fetchAll || is_active then
    ⟨sec, none, false, is_default, is_active, fs.stsAccount sec,
      (if auth0 = none then (fs.stsIdentity sec).1 else auth0),
      (fs.stsIdentity sec).2⟩
  else ⟨sec, none, false, is_default, is_active, none, auth0, none⟩

/-- Credentials-file phase of `list_profiles` (profile_manager.py lines
253-293): nothing when the file is missing, else parse it (errors
propagate) and append entries for sections whose name was not already
produced by the config phase. -/
def credsPhase (fs : ProfFS) (current : Option String) (fetchAll : Bool)
    (found : List ProfileInfo) : Except ParseError (List ProfileInfo) :=
  match fs.credsLines with
  | none => pure []
  | some clines => do
    let creds ← parseIni clines
    pure ((sectionsOf creds).filterMap (fun s =>
      if found.any (fun p => p.name == s.1) then none
      else some (credsProfile fs current fetchAll s.1 s.2)))

/-- Embedding of `list_profiles` (profile_manager.py lines 150-295):
config-file entries first, then credentials-only entries. -/
def list_profiles (fs : ProfFS) (ev : EnvVars) (fetchAll : Bool) :
    Except ParseError (List ProfileInfo) := do
  let current := get_current_profile ev
  let cfgP ← configPhase fs current fetchAll
  let extra ← credsPhase fs current fetchAll cfgP
  pure (cfgP ++ extra)

/-- Embedding of `switch_profile` (profile_manager.py lines 317-338):
re-lists the profiles (parse errors propagate), succeeds and sets
AWS_PROFILE only when some listed profile carries the requested name.
The parameter is optional because `validate_profile` passes the saved
original profile, which can be None; no profile is named None, so that
call always returns False and changes nothing. -/
def switch_profile (fs : ProfFS) (ev : EnvVars) (name : Option String) :
    Except ParseError (Bool × EnvVars) := do
  let profiles ← list_profiles fs ev true
  if profiles.any (fun p => some p.name == name) then
    pure (true, ⟨name, ev.awsDefaultProfile⟩)
  else pure (false, ev)

/-- Embedding of `validate_profile` (profile_manager.py lines 340-374).
The provider construction outcome is the providerOk oracle; messages are
fixed strings.  When a truthy profile name differing from the saved
current profile is given, the code switches to it, validates, and calls
`switch_profile` on the saved original on both the success and the
failure path before returning. -/
def validate_profile (fs : ProfFS) (ev : EnvVars) (profile_name : Option String)
    (providerOk : Bool) : Except ParseError ((Bool × String) × EnvVars) := do
  let original := get_current_profile ev
  let doSwitch := match pyTruthy profile_name with
    | none => false
    | some p => decide (some p ≠ original)
  if doSwitch then do
    let r1 ← switch_profile fs ev profile_name
    if r1.1 = false then
      pure ((false, "Profile not found"), r1.2)
    else do
      let r2 ← switch_profile fs r1.2 original
      if providerOk then pure ((true, "Credentials are valid"), r2.2)
      else pure ((false, "Credential validation failed"), r2.2)
  else
    if providerOk then pure ((true, "Credentials are valid"), ev)
    else pure ((false, "Credential validation failed"), ev)

/-- Malformed config store for the C4 counterexample: one content line
with no section header and no key-value delimiter. -/
def fsC4 : ProfFS :=
  ⟨some ["just some garbage"], none, none, fun _ => none, fun _ => (none, none)⟩

/-- World for the malformed-credentials half of C4: a well-formed config
store and a credentials store whose first line is malformed. -/
def fsC4b : ProfFS :=
  ⟨some ["[profile a]"], some ["???"], none, fun _ => none, fun _ => (none, none)⟩

/-- Empty world for the C4 witness: both stores missing. -/
def fsC4w : ProfFS := ⟨none, none, none, fun _ => none, fun _ => (none, none)⟩

/-- Config store for the C5 counterexample: the sections [foo] and
[profile foo] both normalize to the profile name foo. -/
def fsC5 : ProfFS :=
  ⟨some ["[foo]", "[profile foo]"], none, none, fun _ => none, fun _ => (none, none)⟩

/-- World for the C5 witness: one profile bar. -/
def fsC5w : ProfFS :=
  ⟨some ["[profile bar]"], none, none, fun _ => none, fun _ => (none, none)⟩

/-- Config store for the C6 counterexample: the sections [default] and
[profile default] both normalize to the profile name default. -/
def fsC6 : ProfFS :=
  ⟨some ["[default]", "[profile default]"], none, none,
   fun _ => none, fun _ => (none, none)⟩

/-- World for the C6 witness: profile a in both stores, profile b only in
the credentials store. -/
def fsC6w : ProfFS :=
  ⟨some ["[profile a]", "region = r1"],
   some ["[a]", "aws_access_key_id = x", "[b]", "aws_access_key_id = y"],
   none, fun _ => none, fun _ => (none, none)⟩

/-- World for C7: a config store defining profile foo; no variables set
before the call. -/
def fsC7 : ProfFS :=
  ⟨some ["[profile foo]", "region = us-east-1"], none, none,
   fun _ => none, fun _ => (none, none)⟩

/-- C1, counterexample.  With a primary response of status 500 the claim
says the secondary endpoint must be queried (primary returned a
non-success status), but the code returns None at once: the secondary is
not queried even though it would have answered 200 with an address. -/
theorem c1_counterexample :
    httpFailed (Net.mk (.resp 500 "error") (.resp 200 "198.51.100.7")).primary = true ∧
    secondary_queried (Net.mk (.resp 500 "error") (.resp 200 "198.51.100.7")) = false ∧
    get_local_public_ip (Net.mk (.resp 500 "error") (.resp 200 "198.51.100.7")) = none := by
  decide

/-- C1, amended.  `get_local_public_ip` queries the secondary endpoint iff
the primary call raised an exception (a primary response with non-success
status yields None with no fallback), and whenever both endpoints fail
(exception or non-200 status) the call returns None rather than
crashing. -/
theorem c1_fallback (net : Net) :
    secondary_queried net = primary_raised net ∧
    (httpFailed net.primary = true → httpFailed net.secondary = true →
      get_local_public_ip net = none) := by
  constructor
  · cases h : net.primary <;> cases h2 : net.secondary <;>
      simp [secondary_queried, primary_raised, get_local_public_ip_traced, h, h2]
  · intro hp hs
    cases h : net.primary with
    | resp s t =>
      simp [httpFailed, h] at hp
      simp [get_local_public_ip, get_local_public_ip_traced, h, hp]
    | exn =>
      cases h2 : net.secondary with
      | resp s t =>
        simp [httpFailed, h2] at hs
        simp [get_local_public_ip, get_local_public_ip_traced, h, h2, hs]
      | exn =>
        simp [get_local_public_ip, get_local_public_ip_traced, h, h2]

/-- C1, witness for the amended theorem at a concrete network state where
the primary raised and the secondary answered 503. -/
theorem c1_fallback_witness :
    secondary_queried (Net.mk .exn (.resp 503 "x")) = true ∧
    get_local_public_ip (Net.mk .exn (.resp 503 "x")) = none :=
  ⟨(c1_fallback (Net.mk .exn (.resp 503 "x"))).1,
   (c1_fallback (Net.mk .exn (.resp 503 "x"))).2 (by decide) (by decide)⟩

/-- C10.  For all IP strings and suffixes, `format_cidr_from_ip` returns
exactly their concatenation, and the default suffix is "/32"; as a total
Lean function it is pure and never fails. -/
theorem c10_format_cidr (ip s : String) :
    format_cidr_from_ip ip s = ip ++ s ∧ format_cidr_from_ip ip = ip ++ "/32" :=
  ⟨rfl, rfl⟩

/-- C3.  In every status produced by `check_access`, has_access is true
iff the current cidr belongs to the cidr blocks of some live port-22
ingress rule of that status's security group (given the executable is
present and the rule fetch for that group succeeds, so the fetched rules
are the live ones); and in the concrete scenario with one port-22 rule
for 198.51.100.0/32 and current address 203.0.113.42, `check_access`
reports exactly one status with has_access false, current cidr
203.0.113.42/32 and authorized blocks [198.51.100.0/32]. -/
theorem c3_check_access :
    (∀ (env : Env) (cloud : Cloud) (fOk : String → Bool) (nameF pf : Option String)
      (st : AccessStatus), st ∈ check_access env cloud fOk nameF pf →
      env.pulumiInstalled = true → fOk st.security_group_id = true →
      (st.has_access = true ↔ ∃ r ∈ cloud.sgRules st.security_group_id,
        r.port = some 22 ∧ st.current_ip ∈ r.cidr_blocks)) ∧
    check_access envC3 cloudC3 (fun _ => true) none none =
      [⟨"dev/test-stack", "sg-12345", false, "203.0.113.42/32", ["198.51.100.0/32"]⟩] := by
  constructor
  · intro env cloud fOk nameF pf st hmem hinst hfetch
    unfold check_access at hmem
    cases hip : pyTruthy (get_local_public_ip env.net) with
    | none => rw [hip] at hmem; simp at hmem
    | some ip =>
      rw [hip] at hmem
      rw [List.mem_filterMap] at hmem
      obtain ⟨s, hs, hmk⟩ := hmem
      unfold mkAccessStatus at hmk
      cases hsg : pyTruthy (lookupOutput s.outputs "security_group_id") with
      | none => rw [hsg] at hmk; simp at hmk
      | some sg =>
        rw [hsg] at hmk
        simp only [Option.some.injEq] at hmk
        subst hmk
        simp only at hfetch ⊢
        unfold get_security_group_rules
        rw [hinst, hfetch]
        simp only [if_false, Bool.false_eq_true, if_true]
        rw [List.any_eq_true]
        constructor
        · rintro ⟨r, hr, hpr⟩
          rw [Bool.and_eq_true, beq_iff_eq] at hpr
          exact ⟨r, hr, hpr.1, List.elem_iff.mp hpr.2⟩
        · rintro ⟨r, hr, hp, hc⟩
          refine ⟨r, hr, ?_⟩
          rw [Bool.and_eq_true, beq_iff_eq]
          exact ⟨hp, List.elem_iff.mpr hc⟩
  · decide

/-- C3, witness: the invariant applied at the scenario's status, whose
membership, tool presence and fetch success are discharged by
computation. -/
theorem c3_check_access_witness :
    ((⟨"dev/test-stack", "sg-12345", false, "203.0.113.42/32",
        ["198.51.100.0/32"]⟩ : AccessStatus).has_access = true ↔
      ∃ r ∈ cloudC3.sgRules "sg-12345", r.port = some 22 ∧
        "203.0.113.42/32" ∈ r.cidr_blocks) :=
  c3_check_access.1 envC3 cloudC3 (fun _ => true) none none
    ⟨"dev/test-stack", "sg-12345", false, "203.0.113.42/32", ["198.51.100.0/32"]⟩
    (by rw [c3_check_access.2]; exact List.mem_singleton.mpr rfl) rfl rfl

/-- C8, counterexample.  The raw listing contains the stack proj/s1, its
outputs retrieval yields the empty dictionary, yet `list_stacks` omits
the stack entirely instead of including a summary with empty outputs. -/
theorem c8_counterexample :
    envC8.rawStacks = some [⟨some "s1", some "proj", some "2024-01-01T00:00:00Z", some 3⟩] ∧
    envC8.stackOutputs "proj/s1" = [] ∧
    list_stacks envC8 none = [] := by
  refine ⟨rfl, rfl, ?_⟩
  decide

/-- C8, amended.  A stack whose outputs could not be retrieved is treated
the same as a stack with no exported values: both are omitted from the
`list_stacks` result, so every summary in a listing has a non-empty
outputs dictionary (absence from the listing, not emptiness, signals no
data). -/
theorem c8_empty_outputs_omitted (env : Env) (pf : Option String) (s : StackSummary)
    (h : s ∈ list_stacks env pf) : s.outputs ≠ [] := by
  unfold list_stacks at h
  split at h
  · simp at h
  · split at h
    · simp at h
    · rw [List.mem_filterMap] at h
      obtain ⟨a, _, ha⟩ := h
      cases hn : pyTruthy a.name with
      | none => rw [hn] at ha; simp at ha
      | some n =>
        cases hp : pyTruthy a.projectName with
        | none => rw [hn, hp] at ha; simp at ha
        | some p =>
          rw [hn, hp] at ha
          simp only at ha
          split at ha
          · simp at ha
          · rename_i hemp
            simp only [Option.some.injEq] at ha
            subst ha
            simpa [List.isEmpty_iff] using hemp

/-- C8, witness: the amended theorem applied to the one summary listed in
a concrete environment whose outputs retrieval succeeds. -/
theorem c8_empty_outputs_omitted_witness :
    (⟨"proj/s1", "proj", none, none, [("security_group_id", "sg-1")]⟩ :
      StackSummary).outputs ≠ [] :=
  c8_empty_outputs_omitted envC8w none
    ⟨"proj/s1", "proj", none, none, [("security_group_id", "sg-1")]⟩ (by decide)

/-- Helper: a successful find? means the filtered list starts with the
found element. -/
theorem find?_eq_filter_cons {α : Type} (p : α → Bool) (l : List α) (a : α)
    (h : l.find? p = some a) : ∃ tl, l.filter p = a :: tl := by
  induction l with
  | nil => simp at h
  | cons x xs ih =>
    by_cases hx : p x
    · rw [List.find?_cons_of_pos xs hx] at h
      injection h with h
      subst h
      exact ⟨xs.filter p, by rw [List.filter_cons_of_pos hx]⟩
    · rw [List.find?_cons_of_neg xs hx] at h
      obtain ⟨tl, htl⟩ := ih h
      exact ⟨tl, by rw [List.filter_cons_of_neg hx, htl]⟩

/-- Helper: when the address resolves to a truthy (non-empty) ip and the
target stack is the first name match with a truthy security-group output,
`check_access` on that name produces that stack's status first. -/
theorem check_access_head (env : Env) (cloud : Cloud) (fOk : String → Bool)
    (name sgId ip : String) (st : StackSummary)
    (hip : pyTruthy (get_local_public_ip env.net) = some ip)
    (hfind : (list_stacks env none).find? (fun s => s.name == name) = some st)
    (hsg : pyTruthy (lookupOutput st.outputs "security_group_id") = some sgId) :
    ∃ status rest, check_access env cloud fOk (some name) none = status :: rest ∧
      mkAccessStatus env cloud fOk (format_cidr_from_ip ip) st = some status := by
  obtain ⟨tl, htl⟩ := find?_eq_filter_cons _ _ _ hfind
  unfold check_access
  rw [hip]
  simp only
  rw [htl, List.filterMap_cons]
  unfold mkAccessStatus
  rw [hsg]
  exact ⟨_, _, rfl, rfl⟩

/-- Helper: the first status produced for a stack whose group grants the
current cidr on port 22 reports access (tool present, fetch succeeds). -/
theorem mkAccessStatus_granted (env : Env) (cloud : Cloud) (fOk : String → Bool)
    (cidr sgId : String) (st : StackSummary) (status : AccessStatus)
    (hinst : env.pulumiInstalled = true)
    (hsg : pyTruthy (lookupOutput st.outputs "security_group_id") = some sgId)
    (hfetch : fOk sgId = true)
    (hgrant : ∃ r ∈ cloud.sgRules sgId, r.port = some 22 ∧ cidr ∈ r.cidr_blocks)
    (hmk : mkAccessStatus env cloud fOk cidr st = some status) :
    status.has_access = true := by
  unfold mkAccessStatus at hmk
  rw [hsg] at hmk
  simp only [Option.some.injEq] at hmk
  subst hmk
  simp only
  unfold get_security_group_rules
  rw [hinst, hfetch]
  simp only [if_false, Bool.false_eq_true, if_true]
  rw [List.any_eq_true]
  obtain ⟨r, hr, hp, hc⟩ := hgrant
  refine ⟨r, hr, ?_⟩
  rw [Bool.and_eq_true, beq_iff_eq]
  exact ⟨hp, List.elem_iff.mpr hc⟩

/-- C2.  For a stack whose security group already authorizes the current
cidr on port 22 (and whose status check succeeds), `update_ip_access`
returns success without running the mutating orchestration program and
leaves the cloud state unchanged; calling it twice in succession
therefore still reports success without mutation and leaves exactly one
ingress rule carrying that cidr, given exactly one was present. -/
theorem c2_update_idempotent
    (env : Env) (cloud : Cloud) (fOk : String → Bool) (initOk upOk : Bool)
    (name sgId ip : String) (st : StackSummary)
    (hinst : env.pulumiInstalled = true)
    (hip : pyTruthy (get_local_public_ip env.net) = some ip)
    (hfind : (list_stacks env none).find? (fun s => s.name == name) = some st)
    (hsg : pyTruthy (lookupOutput st.outputs "security_group_id") = some sgId)
    (hfetch : fOk sgId = true)
    (hgrant : ∃ r ∈ cloud.sgRules sgId, r.port = some 22 ∧
      format_cidr_from_ip ip ∈ r.cidr_blocks)
    (hcount : ((cloud.sgRules sgId).filter
      (fun r => r.cidr_blocks.contains (format_cidr_from_ip ip))).length = 1) :
    update_ip_access env env cloud fOk initOk upOk name =
      (UpdateOutcome.mk true false, cloud) ∧
    update_ip_access env env
      (update_ip_access env env cloud fOk initOk upOk name).2 fOk initOk upOk name =
      (UpdateOutcome.mk true false, cloud) ∧
    (((update_ip_access env env
        (update_ip_access env env cloud fOk initOk upOk name).2
        fOk initOk upOk name).2.sgRules sgId).filter
      (fun r => r.cidr_blocks.contains (format_cidr_from_ip ip))).length = 1 := by
  obtain ⟨status, rest, hca, hmk⟩ :=
    check_access_head env cloud fOk name sgId ip st hip hfind hsg
  have hacc : status.has_access = true :=
    mkAccessStatus_granted env cloud fOk (format_cidr_from_ip ip) sgId st status
      hinst hsg hfetch hgrant hmk
  have hne : (list_stacks env none).isEmpty = false := by
    cases hl : list_stacks env none with
    | nil => rw [hl] at hfind; simp at hfind
    | cons x xs => simp [List.isEmpty]
  have hmain : update_ip_access env env cloud fOk initOk upOk name =
      (UpdateOutcome.mk true false, cloud) := by
    unfold update_ip_access
    rw [if_neg (by simp [hinst]), hip]
    simp only [hne, Bool.false_eq_true, if_false, hfind]
    simp only [hsg, hca, hacc, if_true]
  refine ⟨hmain, ?_, ?_⟩
  · rw [hmain]
    exact hmain
  · rw [hmain]
    simp only
    rw [hmain]
    exact hcount

/-- C2, witness: the short-circuit theorem applied at the concrete world
where sg-1 already grants the current cidr. -/
theorem c2_update_idempotent_witness :
    update_ip_access envC2 envC2 cloudC2 (fun _ => true) true true "proj/s1" =
      (UpdateOutcome.mk true false, cloudC2) :=
  (c2_update_idempotent envC2 cloudC2 (fun _ => true) true true "proj/s1" "sg-1"
    "203.0.113.42" ⟨"proj/s1", "proj", none, none, [("security_group_id", "sg-1")]⟩
    rfl (by decide) (by decide) (by decide) rfl (by decide) (by decide)).1

/-- Helper: whenever the staged update reports success, the mutating run
was executed (only a failed stack-init skips it, and that path fails). -/
theorem run_sg_update_success_mutates (c : Cloud) (sg cidr : String) (i u : Bool)
    (h : (run_sg_update c sg cidr i u).1.success = true) :
    (run_sg_update c sg cidr i u).1.mutationRun = true := by
  unfold run_sg_update at h ⊢
  by_cases hi : i = false
  · rw [if_pos hi] at h
    simp at h
  · rw [if_neg hi] at h ⊢
    by_cases hu : u = true
    · rw [if_pos hu]
    · rw [if_neg hu] at h
      simp at h

/-- C9.  When the pre-update access check inside `update_ip_access`
returns no status entries, the operation does not stop: it proceeds to
the mutating orchestration run (success then mirrors that run's exit
code, and the security group gains the new rule exactly when the run
succeeds); moreover the no-mutation success short-circuit happens only
when the check returned at least one entry reporting access. -/
theorem c9_update_on_empty_check
    (env1 env2 : Env) (cloud : Cloud) (fOk : String → Bool) (initOk upOk : Bool)
    (name sgId ip : String) (st : StackSummary)
    (hinst : env1.pulumiInstalled = true)
    (hip : pyTruthy (get_local_public_ip env1.net) = some ip)
    (hfind : (list_stacks env1 none).find? (fun s => s.name == name) = some st)
    (hsg : pyTruthy (lookupOutput st.outputs "security_group_id") = some sgId)
    (hempty : check_access env2 cloud fOk (some name) none = [])
    (hinit : initOk = true) :
    update_ip_access env1 env2 cloud fOk initOk upOk name =
      (UpdateOutcome.mk upOk true,
        if upOk then addRule cloud sgId (format_cidr_from_ip ip) else cloud) ∧
    ∀ (e1 e2 : Env) (c : Cloud) (f : String → Bool) (i u : Bool) (n : String),
      (update_ip_access e1 e2 c f i u n).1.success = true →
      (update_ip_access e1 e2 c f i u n).1.mutationRun = false →
      ∃ a ∈ check_access e2 c f (some n) none, a.has_access = true := by
  constructor
  · have hne : (list_stacks env1 none).isEmpty = false := by
      cases hl : list_stacks env1 none with
      | nil => rw [hl] at hfind; simp at hfind
      | cons x xs => simp [List.isEmpty]
    unfold update_ip_access
    rw [if_neg (by simp [hinst]), hip]
    simp only [hne, Bool.false_eq_true, if_false, hfind]
    simp only [hsg, hempty, hinit]
    unfold run_sg_update
    cases upOk with
    | true => simp
    | false => simp
  · intro e1 e2 c f i u n hsucc hmut
    by_cases hpi : e1.pulumiInstalled = false
    · rw [update_ip_access, if_pos hpi] at hsucc
      simp at hsucc
    · rw [update_ip_access, if_neg hpi] at hsucc hmut
      cases hip2 : pyTruthy (get_local_public_ip e1.net) with
      | none =>
        rw [hip2] at hsucc
        simp at hsucc
      | some ip2 =>
        rw [hip2] at hsucc hmut
        by_cases hemp : (list_stacks e1 none).isEmpty = true
        · simp [hemp] at hsucc
        · rw [Bool.not_eq_true] at hemp
          simp only [hemp, Bool.false_eq_true, if_false] at hsucc hmut
          cases hfind2 : (list_stacks e1 none).find? (fun s => s.name == n) with
          | none =>
            simp [hfind2] at hsucc
          | some target =>
            simp only [hfind2] at hsucc hmut
            cases hsg2 : pyTruthy (lookupOutput target.outputs "security_group_id") with
            | none =>
              simp [hsg2] at hsucc
            | some sg2 =>
              simp only [hsg2] at hsucc hmut
              cases hca : check_access e2 c f (some n) none with
              | nil =>
                simp only [hca] at hsucc hmut
                rw [run_sg_update_success_mutates _ _ _ _ _ hsucc] at hmut
                simp at hmut
              | cons a tail =>
                simp only [hca] at hsucc hmut
                by_cases hacc : a.has_access = true
                · exact ⟨a, by simp [hca], hacc⟩
                · rw [if_neg hacc] at hsucc hmut
                  rw [run_sg_update_success_mutates _ _ _ _ _ hsucc] at hmut
                  simp at hmut

/-- C9, witness: with an empty pre-update check the call proceeds to the
mutating run, succeeds, and the group gains the new rule. -/
theorem c9_update_on_empty_check_witness :
    update_ip_access envC9a envC9b cloudC9 (fun _ => true) true true "proj/s1" =
      (UpdateOutcome.mk true true,
        addRule cloudC9 "sg-1" (format_cidr_from_ip "203.0.113.42")) :=
  (c9_update_on_empty_check envC9a envC9b cloudC9 (fun _ => true) true true
    "proj/s1" "sg-1" "203.0.113.42"
    ⟨"proj/s1", "proj", none, none, [("security_group_id", "sg-1")]⟩
    rfl (by decide) (by decide) (by decide) (by decide) rfl).1

/-- Helper: pure in the Except monad is ok. -/
theorem except_pure_ok {ε α : Type} (a : α) : (pure a : Except ε α) = Except.ok a :=
  rfl

/-- Helper: bind on a success applies the continuation. -/
theorem except_bind_ok {ε α β : Type} (a : α) (f : α → Except ε β) :
    (Except.ok a >>= f) = f a :=
  rfl

/-- Helper: bind on an error short-circuits. -/
theorem except_bind_error {ε α β : Type} (e : ε) (f : α → Except ε β) :
    ((Except.error e : Except ε α) >>= f) = Except.error e :=
  rfl

/-- Helper: a mapped Except value that succeeds comes from a success. -/
theorem except_map_ok {ε α β : Type} (f : α → β) (x : Except ε α) (p : β)
    (h : x.map f = .ok p) : ∃ a, x = .ok a ∧ p = f a := by
  cases x with
  | error e => simp [Except.map] at h
  | ok a =>
    simp [Except.map] at h
    exact ⟨a, rfl, h.symm⟩

/-- Helper: name and activity of a successfully built config entry. -/
theorem buildConfigBody_fields (fs : ProfFS) (cfg : Ini) (current : Option String)
    (fetchAll : Bool) (name : String) (isd : Bool) (opts : IniOptions) (p : ProfileInfo)
    (h : buildConfigBody fs cfg current fetchAll name isd opts = .ok p) :
    p.name = name ∧ p.is_active = decide (current = some name) := by
  simp only [buildConfigBody] at h
  obtain ⟨a, _, hp⟩ := except_map_ok _ _ _ h
  subst hp
  exact ⟨rfl, rfl⟩

/-- Helper: every entry the per-section dispatch yields is active exactly
when its own name equals the resolved current profile. -/
theorem configProfileOfSection_active (fs : ProfFS) (cfg : Ini)
    (current : Option String) (fetchAll : Bool) (s : String × IniOptions)
    (p : ProfileInfo)
    (h : configProfileOfSection fs cfg current fetchAll s = .ok (some p)) :
    p.is_active = decide (current = some p.name) := by
  unfold configProfileOfSection at h
  split at h
  · obtain ⟨a, hx, hp⟩ := except_map_ok _ _ _ h
    rw [Option.some.injEq] at hp
    subst hp
    obtain ⟨hn, ha⟩ := buildConfigBody_fields _ _ _ _ _ _ _ _ hx
    rw [ha, hn]
  · split at h
    · obtain ⟨a, hx, hp⟩ := except_map_ok _ _ _ h
      rw [Option.some.injEq] at hp
      subst hp
      obtain ⟨hn, ha⟩ := buildConfigBody_fields _ _ _ _ _ _ _ _ hx
      rw [ha, hn]
    · split at h
      · rw [except_pure_ok] at h
        simp at h
      · obtain ⟨a, hx, hp⟩ := except_map_ok _ _ _ h
        rw [Option.some.injEq] at hp
        subst hp
        obtain ⟨hn, ha⟩ := buildConfigBody_fields _ _ _ _ _ _ _ _ hx
        rw [ha, hn]

/-- Helper: every entry of the config loop output comes from one of its
sections. -/
theorem configEntries_mem (fs : ProfFS) (cfg : Ini) (current : Option String)
    (fetchAll : Bool) (l : Ini) (ps : List ProfileInfo)
    (h : configEntries fs cfg current fetchAll l = .ok ps) :
    ∀ p ∈ ps, ∃ s ∈ l,
      configProfileOfSection fs cfg current fetchAll s = .ok (some p) := by
  induction l generalizing ps with
  | nil =>
    simp [configEntries] at h
    subst h
    simp
  | cons s rest ih =>
    simp only [configEntries] at h
    cases hs : configProfileOfSection fs cfg current fetchAll s with
    | error e =>
      rw [hs, except_bind_error] at h
      simp at h
    | ok popt =>
      rw [hs, except_bind_ok] at h
      cases hr : configEntries fs cfg current fetchAll rest with
      | error e =>
        rw [hr, except_bind_error] at h
        simp at h
      | ok ps' =>
        rw [hr, except_bind_ok] at h
        cases popt with
        | none =>
          have h2 : (Except.ok ps' : Except ParseError (List ProfileInfo)) =
              Except.ok ps := h
          rw [Except.ok.injEq] at h2
          subst h2
          intro p hp
          obtain ⟨s', hs', h'⟩ := ih ps' hr p hp
          exact ⟨s', List.mem_cons_of_mem _ hs', h'⟩
        | some p0 =>
          have h2 : (Except.ok (p0 :: ps') : Except ParseError (List ProfileInfo)) =
              Except.ok ps := h
          rw [Except.ok.injEq] at h2
          subst h2
          intro p hp
          rcases List.mem_cons.mp hp with hph | hp'
          · subst hph
            exact ⟨s, List.mem_cons_self s rest, hs⟩
          · obtain ⟨s', hs', h'⟩ := ih ps' hr p hp'
            exact ⟨s', List.mem_cons_of_mem _ hs', h'⟩

/-- Helper: every config-phase entry is active exactly when its name
equals the resolved current profile. -/
theorem configPhase_active (fs : ProfFS) (current : Option String)
    (fetchAll : Bool) (c : List ProfileInfo)
    (h : configPhase fs current fetchAll = .ok c) :
    ∀ p ∈ c, p.is_active = decide (current = some p.name) := by
  unfold configPhase at h
  cases hcl : fs.configLines with
  | none =>
    rw [hcl] at h
    have h2 : (Except.ok [] : Except ParseError (List ProfileInfo)) = Except.ok c := h
    rw [Except.ok.injEq] at h2
    subst h2
    simp
  | some lines =>
    rw [hcl] at h
    have h2 : parseIni lines >>= (fun cfg =>
        configEntries fs cfg current fetchAll (sectionsOf cfg)) = Except.ok c := h
    cases hp : parseIni lines with
    | error e =>
      rw [hp, except_bind_error] at h2
      simp at h2
    | ok cfg =>
      rw [hp, except_bind_ok] at h2
      intro p hpmem
      obtain ⟨s, _, hsec⟩ := configEntries_mem _ _ _ _ _ _ h2 p hpmem
      exact configProfileOfSection_active _ _ _ _ _ _ hsec

/-- Helper: name and activity of a credentials-only entry. -/
theorem credsProfile_fields (fs : ProfFS) (current : Option String)
    (fetchAll : Bool) (sec : String) (opts : IniOptions) :
    (credsProfile fs current fetchAll sec opts).name = sec ∧
    (credsProfile fs current fetchAll sec opts).is_active =
      decide (current = some sec) := by
  simp only [credsProfile]
  split <;> exact ⟨rfl, rfl⟩

/-- Helper: every credentials-phase entry is active exactly when its name
equals the resolved current profile, and its name was not produced by the
config phase. -/
theorem credsPhase_props (fs : ProfFS) (current : Option String)
    (fetchAll : Bool) (found e : List ProfileInfo)
    (h : credsPhase fs current fetchAll found = .ok e) :
    ∀ p ∈ e, p.is_active = decide (current = some p.name) ∧
      found.any (fun q => q.name == p.name) = false := by
  unfold credsPhase at h
  cases hcl : fs.credsLines with
  | none =>
    rw [hcl] at h
    have h2 : (Except.ok [] : Except ParseError (List ProfileInfo)) = Except.ok e := h
    rw [Except.ok.injEq] at h2
    subst h2
    simp
  | some clines =>
    rw [hcl] at h
    have h2 : parseIni clines >>= (fun creds =>
        pure ((sectionsOf creds).filterMap (fun s =>
          if found.any (fun p => p.name == s.1) then none
          else some (credsProfile fs current fetchAll s.1 s.2)))) = Except.ok e := h
    cases hp : parseIni clines with
    | error er =>
      rw [hp, except_bind_error] at h2
      simp at h2
    | ok creds =>
      rw [hp, except_bind_ok, except_pure_ok, Except.ok.injEq] at h2
      subst h2
      intro p hpmem
      rw [List.mem_filterMap] at hpmem
      obtain ⟨s, hs, hsome⟩ := hpmem
      by_cases hany : found.any (fun q => q.name == s.1) = true
      · rw [if_pos hany] at hsome
        simp at hsome
      · rw [if_neg hany] at hsome
        injection hsome with hsome
        subst hsome
        obtain ⟨hn, ha⟩ := credsProfile_fields fs current fetchAll s.1 s.2
        constructor
        · rw [ha, hn]
        · rw [hn]
          exact Bool.not_eq_true _ ▸ hany

/-- Helper: a successful listing splits into its two phases. -/
theorem list_profiles_split (fs : ProfFS) (ev : EnvVars) (f : Bool)
    (l : List ProfileInfo) (h : list_profiles fs ev f = .ok l) :
    ∃ c e, configPhase fs (get_current_profile ev) f = .ok c ∧
      credsPhase fs (get_current_profile ev) f c = .ok e ∧ l = c ++ e := by
  have h2 : configPhase fs (get_current_profile ev) f >>= (fun cfgP =>
      credsPhase fs (get_current_profile ev) f cfgP >>= (fun extra =>
        pure (cfgP ++ extra))) = Except.ok l := h
  cases hc : configPhase fs (get_current_profile ev) f with
  | error er =>
    rw [hc, except_bind_error] at h2
    simp at h2
  | ok c =>
    rw [hc, except_bind_ok] at h2
    cases he : credsPhase fs (get_current_profile ev) f c with
    | error er =>
      rw [he, except_bind_error] at h2
      simp at h2
    | ok e =>
      rw [he, except_bind_ok, except_pure_ok, Except.ok.injEq] at h2
      exact ⟨c, e, rfl, he, h2.symm⟩

/-- C4, counterexample.  A config store whose only line is plain garbage
(no section header, no key-value delimiter) makes `list_profiles` raise
the configparser missing-section-header error instead of returning an
empty sequence. -/
theorem c4_counterexample :
    list_profiles fsC4 ⟨none, none⟩ true =
      .error ParseError.missingSectionHeader := by
  rfl

/-- C4, amended.  `list_profiles` never raises when the on-disk stores
are missing: with both files absent it returns the empty sequence, for
every environment and fetch flag.  Malformed content does raise: a
credentials store starting with a garbage line propagates the parse
error out of the listing (and the config-store counterexample shows the
same for the primary store). -/
theorem c4_missing_files (fs : ProfFS) (ev : EnvVars) (f : Bool)
    (h1 : fs.configLines = none) (h2 : fs.credsLines = none) :
    list_profiles fs ev f = .ok [] ∧
    list_profiles fsC4b ⟨none, none⟩ true =
      .error ParseError.missingSectionHeader := by
  constructor
  · have hc : configPhase fs (get_current_profile ev) f = .ok [] := by
      unfold configPhase
      rw [h1]
      rfl
    have he : credsPhase fs (get_current_profile ev) f [] = .ok [] := by
      unfold credsPhase
      rw [h2]
      rfl
    have h3 : list_profiles fs ev f =
        configPhase fs (get_current_profile ev) f >>= (fun cfgP =>
          credsPhase fs (get_current_profile ev) f cfgP >>= (fun extra =>
            pure (cfgP ++ extra))) := rfl
    rw [h3, hc, except_bind_ok, he, except_bind_ok, except_pure_ok]
    rfl
  · rfl

/-- C4, witness: the empty world evaluates to the empty listing. -/
theorem c4_missing_files_witness :
    list_profiles fsC4w ⟨none, none⟩ true = .ok [] :=
  (c4_missing_files fsC4w ⟨none, none⟩ true rfl rfl).1

/-- C5, counterexample.  With AWS_PROFILE=foo and a config store holding
both a [foo] and a [profile foo] section, the listing carries two
entries, both named foo and both active: isActive holds for more than
one entry. -/
theorem c5_counterexample :
    list_profiles fsC5 ⟨some "foo", none⟩ true =
      .ok [⟨"foo", none, false, false, true, none, none, none⟩,
           ⟨"foo", none, false, false, true, none, none, none⟩] ∧
    (([⟨"foo", none, false, false, true, none, none, none⟩,
       ⟨"foo", none, false, false, true, none, none, none⟩] :
        List ProfileInfo).filter (fun p => p.is_active)).length = 2 := by
  exact ⟨by rfl, by rfl⟩

/-- C5, amended.  In every successful listing, an entry is active iff its
name equals the environment-resolved current profile (primary variable
first, then the secondary alias); when neither variable is set no entry
is active; and whenever the names in the listing are pairwise distinct,
at most one entry is active.  (Two config sections can normalize to the
same name, in which case several same-named entries are active at
once — the counterexample.) -/
theorem c5_active_matches_current (fs : ProfFS) (ev : EnvVars) (f : Bool)
    (l : List ProfileInfo) (h : list_profiles fs ev f = .ok l) :
    (∀ p ∈ l, p.is_active = true ↔ get_current_profile ev = some p.name) ∧
    (get_current_profile ev = none → ∀ p ∈ l, p.is_active = false) ∧
    (l.Pairwise (fun p q => p.name ≠ q.name) →
      (l.filter (fun p => p.is_active)).length ≤ 1) := by
  obtain ⟨c, e, hc, he, hl⟩ := list_profiles_split fs ev f l h
  have hact : ∀ p ∈ l, p.is_active =
      decide (get_current_profile ev = some p.name) := by
    subst hl
    intro p hp
    rcases List.mem_append.mp hp with hpc | hpe
    · exact configPhase_active _ _ _ _ hc p hpc
    · exact (credsPhase_props _ _ _ _ _ he p hpe).1
  refine ⟨?_, ?_, ?_⟩
  · intro p hp
    rw [hact p hp]
    simp
  · intro hcur p hp
    rw [hact p hp, hcur]
    simp
  · intro hpw
    have hone : ∀ p ∈ l, p.is_active = true →
        get_current_profile ev = some p.name := by
      intro p hp hact2
      have h4 := hact p hp
      rw [hact2] at h4
      exact of_decide_eq_true h4.symm
    cases hm : l.filter (fun p => p.is_active) with
    | nil => simp [hm]
    | cons x tl =>
      cases tl with
      | nil => simp [hm]
      | cons y tl2 =>
        exfalso
        have hxmem := List.mem_filter.mp (hm ▸ (List.mem_cons_self x (y :: tl2)))
        have hymem := List.mem_filter.mp
          (hm ▸ (List.mem_cons_of_mem x (List.mem_cons_self y tl2)))
        have hx := hone x hxmem.1 hxmem.2
        have hy := hone y hymem.1 hymem.2
        have hsub : List.Sublist (l.filter (fun p => p.is_active)) l :=
          List.filter_sublist l
        have hpw2 := List.Pairwise.sublist hsub hpw
        rw [hm] at hpw2
        have hxy := (List.pairwise_cons.mp hpw2).1 y (List.mem_cons_self y tl2)
        rw [hx] at hy
        exact hxy (Option.some.injEq _ _ ▸ hy)

/-- C5, witness: a single profile bar, active because AWS_PROFILE=bar. -/
theorem c5_active_matches_current_witness :
    ((⟨"bar", none, false, false, true, none, none, none⟩ :
        ProfileInfo).is_active = true ↔
      get_current_profile ⟨some "bar", none⟩ = some "bar") :=
  (c5_active_matches_current fsC5w ⟨some "bar", none⟩ true
      [⟨"bar", none, false, false, true, none, none, none⟩] (by rfl)).1
    ⟨"bar", none, false, false, true, none, none, none⟩ (by simp)

/-- C6, counterexample.  A config store holding both a [default] and a
[profile default] section produces two entries with the same name in one
listing: name values are not unique even though only one store is
involved. -/
theorem c6_counterexample :
    list_profiles fsC6 ⟨none, none⟩ true =
      .ok [⟨"default", none, false, true, false, none, none, none⟩,
           ⟨"default", none, false, false, false, none, none, none⟩] ∧
    (⟨"default", none, false, true, false, none, none, none⟩ :
        ProfileInfo).name =
      (⟨"default", none, false, false, false, none, none, none⟩ :
        ProfileInfo).name := by
  exact ⟨by rfl, rfl⟩

/-- C6, amended.  The listing is the config-phase entries followed by
credentials-only entries, and every appended credentials entry has a name
that no config-phase entry carries: a profile present in both stores
appears only through its config-store entry (primary source wins).  Name
uniqueness holds across the two stores but not within the config store
itself, where two sections can normalize to the same name (the
counterexample). -/
theorem c6_creds_dedup (fs : ProfFS) (ev : EnvVars) (f : Bool)
    (c l : List ProfileInfo)
    (hc : configPhase fs (get_current_profile ev) f = .ok c)
    (h : list_profiles fs ev f = .ok l) :
    l.take c.length = c ∧
    ∀ p ∈ l.drop c.length, ∀ q ∈ c, p.name ≠ q.name := by
  obtain ⟨c2, e, hc2, he, hl⟩ := list_profiles_split fs ev f l h
  rw [hc, Except.ok.injEq] at hc2
  subst hc2
  subst hl
  constructor
  · exact List.take_left c e
  · rw [List.drop_left]
    intro p hp q hq heq
    have hfresh := (credsPhase_props _ _ _ _ _ he p hp).2
    have hany : c.any (fun q2 => q2.name == p.name) = true :=
      List.any_eq_true.mpr ⟨q, hq, beq_iff_eq.mpr heq.symm⟩
    rw [hany] at hfresh
    simp at hfresh

/-- C6, witness: profile a lives in both stores and appears once, from
the config store; profile b is appended from the credentials store with
a name distinct from a's. -/
theorem c6_creds_dedup_witness :
    (⟨"b", none, false, false, false, none, some "api_key", none⟩ :
        ProfileInfo).name ≠
      (⟨"a", some "r1", false, false, false, none, some "api_key", none⟩ :
        ProfileInfo).name :=
  (c6_creds_dedup fsC6w ⟨none, none⟩ false
      [⟨"a", some "r1", false, false, false, none, some "api_key", none⟩]
      [⟨"a", some "r1", false, false, false, none, some "api_key", none⟩,
       ⟨"b", none, false, false, false, none, some "api_key", none⟩]
      (by rfl) (by rfl)).2
    ⟨"b", none, false, false, false, none, some "api_key", none⟩ (by simp)
    ⟨"a", some "r1", false, false, false, none, some "api_key", none⟩ (by simp)

/-- C7.  Evaluation of `validate_profile` at the failing input: with no
profile variable set beforehand and a config store defining profile foo,
validating foo leaves AWS_PROFILE set to foo on return — on the success
path and on the failure path alike — because the restore step calls
`switch_profile` on the saved original value None, which never matches a
profile and so never unsets the variable.  The prior active-profile
signal (unset) is not restored. -/
theorem c7_validate_does_not_restore :
    get_current_profile ⟨none, none⟩ = none ∧
    validate_profile fsC7 ⟨none, none⟩ (some "foo") true =
      .ok ((true, "Credentials are valid"), ⟨some "foo", none⟩) ∧
    validate_profile fsC7 ⟨none, none⟩ (some "foo") false =
      .ok ((false, "Credential validation failed"), ⟨some "foo", none⟩) := by
  exact ⟨rfl, by rfl, by rfl⟩

end InfraUtilX
